import Mathlib

/-!
Verification development for the USB PD specification parser
(`usb_pd_parser`): a shallow embedding of the three core components —
the ToC recognition engine (`parsers/toc_parser.py`), the section
boundary mapper (`parsers/document_parser.py`) and the cross-validation
engine (`validators/validation_report.py`) — together with theorems
about them.

Modelling conventions:
* Python `int` is `Int`; Python `float` scores are modelled as `ℚ`
  (every claim about scores goes through the final `max(0,min(1,_))`
  clamp or compares against decimal constants, where the rational
  model agrees with the float code).
* Python strings are Lean `String`s; the handful of string methods the
  code uses (`strip`, `lower`, `split`, `startswith`, `in`, `join`,
  `replace`) are re-implemented on `List Char` so that they are
  kernel-reducible.  They model the ASCII behaviour of the Python
  originals.
* The external regular-expression engine (`re`) is not part of the
  repository.  Wherever the code calls `re`, the model takes the
  outcome of the call as an explicit functional parameter (`TocRe`,
  `DocRe`), so every theorem quantifies over all possible behaviours
  of the regex engine; the few regexes whose exact semantics a claim
  depends on (`^\d+(\.\d+)*$`-style section-id tests, `\b\w+\b` word
  counting) are implemented concretely.
* Mutable statistics counters and logging, as well as the Excel
  rendering half of `validation_report.py`, are outside every claim
  and are not modelled; the textual `summary` field of the validation
  summary (an f-string) is likewise omitted, its numeric and
  categorical fields are kept.
-/

/-- Clamp `max(0.0, min(1.0, s))` used by both confidence calculators. -/
def clampQ (s : ℚ) : ℚ := max 0 (min 1 s)

/-- Model of Python `str.startswith`: the first string starts with the second. -/
def pyStartsWith (s p : String) : Bool := p.data.isPrefixOf s.data

/-- Model of Python `needle in hay` substring containment. -/
def listInfix (needle : List Char) : List Char → Bool
  | [] => needle.isEmpty
  | c :: t => needle.isPrefixOf (c :: t) || listInfix needle t

/-- Model of Python `needle in hay` on strings. -/
def pyContainsSub (hay needle : String) : Bool := listInfix needle.data hay.data

/-- Model of Python `str.strip()` (ASCII whitespace). -/
def pyStrip (s : String) : String :=
  ⟨((s.data.dropWhile Char.isWhitespace).reverse.dropWhile Char.isWhitespace).reverse⟩

/-- Model of Python `str.lower()` (ASCII case folding). -/
def pyLower (s : String) : String := ⟨s.data.map Char.toLower⟩

/-- Split a character list at every occurrence of `sep` (Python `str.split(sep)`). -/
def splitOnChar (sep : Char) : List Char → List (List Char)
  | [] => [[]]
  | c :: cs =>
    if c = sep then [] :: splitOnChar sep cs
    else
      match splitOnChar sep cs with
      | [] => [[c]]
      | h :: t => (c :: h) :: t

/-- Model of Python `text.split('\n')`. -/
def pySplitLines (s : String) : List String :=
  (splitOnChar '\n' s.data).map (fun cs => (⟨cs⟩ : String))

/-- Model of Python `sep.join(parts)`. -/
def pyJoin (sep : String) (parts : List String) : String :=
  ⟨List.intercalate sep.data (parts.map (·.data))⟩

/-- Model of Python `int(s)` on the digit-only strings produced by the
`(\d+)` regex groups: `some` of the base-10 value on a nonempty string
of ASCII digits, `none` (a `ValueError`) otherwise. -/
def pyInt? (s : String) : Option Int :=
  if s.data ≠ [] ∧ s.data.all Char.isDigit then
    some (s.data.foldl (fun acc c => acc * 10 + (c.toNat - '0'.toNat)) 0)
  else none

/-- Replace every maximal run of two or more spaces by a single space
(the `re.sub(r' {2,}', ' ', _)` normalisation). -/
def collapseSpaces : List Char → List Char
  | ' ' :: ' ' :: rest => collapseSpaces (' ' :: rest)
  | c :: rest => c :: collapseSpaces rest
  | [] => []
termination_by cs => cs.length

/-- Replace tabs by four spaces (the `re.sub(r'\t', '    ', _)` normalisation). -/
def expandTabs (s : String) : String :=
  ⟨s.data.flatMap (fun c => if c = '\t' then [' ', ' ', ' ', ' '] else [c])⟩

/-- A character matched by the `\w` class (ASCII reading). -/
def isWordChar (c : Char) : Bool := c.isAlphanum || c = '_'

/-- Count maximal runs of characters satisfying `p`. -/
def countRuns (p : Char → Bool) : List Char → Nat
  | [] => 0
  | c :: cs =>
    if p c then
      match cs with
      | [] => 1
      | d :: _ => if p d then countRuns p cs else 1 + countRuns p cs
    else countRuns p cs

/-- Model of `len(re.findall(r'\b\w+\b', content))`: the number of
maximal runs of word characters. -/
def pyWordCount (s : String) : Nat := countRuns isWordChar s.data

/-- Model of the `^\d+(\.\d+)*$` test used for numeric section ids. -/
def numTail : List Char → Bool
  | [] => true
  | '.' :: c :: cs => c.isDigit && numTail cs
  | c :: cs => c.isDigit && numTail cs

/-- `isNumericId s` holds iff `s` matches `^\d+(\.\d+)*$`. -/
def isNumericId (s : String) : Bool :=
  match s.data with
  | [] => false
  | c :: cs => c.isDigit && numTail cs

/-- `isDottedNumericId s` holds iff `s` matches `^\d+(\.\d+)+$`: the
same language as `isNumericId` restricted to ids containing at least
one dot (the `(\.\d+)` group must occur at least once). -/
def isDottedNumericId (s : String) : Bool :=
  isNumericId s && 1 ≤ s.data.count '.'

/- ## Data model -/

/-- `TOCEntry` dataclass of `toc_parser.py`. -/
structure TOCEntry where
  section_id : String
  title : String
  page : Int
  level : Int
  parent_id : Option String
  full_path : String
  tags : List String
  confidence_score : ℚ
  raw_line : String
deriving DecidableEq, Repr

/-- `PageExtraction` record consumed by `document_parser.py` (only the
fields the document parser reads). -/
structure PageExtraction where
  page_number : Int
  text : String
deriving DecidableEq, Repr

/-- `DocumentSection` dataclass of `document_parser.py`. -/
structure DocumentSection where
  section_id : String
  title : String
  page_start : Int
  page_end : Option Int
  level : Int
  parent_id : Option String
  full_path : String
  content : String
  content_type : String
  has_tables : Bool
  has_figures : Bool
  table_count : Nat
  figure_count : Nat
  word_count : Nat
  tags : List String
  confidence_score : ℚ
  extraction_notes : List String
deriving DecidableEq, Repr

/- ## ToC recognition engine (`toc_parser.py`) -/

/-- The seven compiled regex recognizers of `_compile_patterns`. -/
inductive PatternName where
  | standard
  | spaced
  | appendix
  | chapter
  | indented
  | table_figure
  | references
deriving DecidableEq, Repr

/-- The raw outcome of one `re.Match`: its span in the searched text,
`match.group(0)` and `match.groups()`. -/
structure RawMatch where
  startPos : Nat
  endPos : Nat
  group0 : String
  groups : List String
deriving DecidableEq, Repr

/-- Behaviour of the external `re` engine inside the ToC parser:
`collect` is the outcome of `_collect_pattern_matches` on the cleaned
text, `noise` the outcome of the noise-pattern loop of
`_is_noise_line` on a nonempty stripped lowered line, and `tagSearch`
the outcome of `re.search(pattern, title_lower)` in
`_generate_semantic_tags`. -/
structure TocRe where
  collect : String → List (PatternName × RawMatch)
  noise : String → Bool
  tagSearch : String → String → Bool

/-- `_is_noise_line`: an empty stripped line is noise, otherwise the
noise regex list decides. -/
def is_noise_line (re : TocRe) (line : String) : Bool :=
  let ls := pyLower (pyStrip line)
  if ls = ("") then true else re.noise ls

/-- `_preprocess_text`: drop noise lines, expand tabs, strip and
collapse space runs, keep nonblank lines. -/
def preprocess_text (re : TocRe) (text : String) : String :=
  pyJoin ("\n") ((pySplitLines text).filterMap (fun line =>
    if is_noise_line re line then none
    else
      let line1 := ⟨collapseSpaces (pyStrip (expandTabs line)).data⟩
      if pyStrip line1 ≠ ("") then some line1 else none))

/-- The patterns for which `_validate_match` runs its page and title
checks (`pattern_name in ["standard", "spaced", "appendix", "chapter",
"indented"]`). -/
def pageCheckedPattern : PatternName → Bool
  | .standard | .spaced | .appendix | .chapter | .indented => true
  | .table_figure | .references => false

/-- `groups[-1]` (with `none` for the `IndexError` case). -/
def groupNegOne (gs : List String) : Option String := gs.reverse[0]?

/-- `groups[-2]` (with `none` for the `IndexError` case). -/
def groupNegTwo (gs : List String) : Option String := gs.reverse[1]?

/-- `_validate_match`: for the five page-checked patterns, reject when
the page number is outside `[1, 5000]`, the stripped title length is
outside `[2, 200]`, or fewer than 30% of the title characters are
alphabetic (`alpha_chars < len(title) * 0.3`, rendered exactly as
`10 * alpha_chars < 3 * len(title)`); a `ValueError`/`IndexError`
inside the checks also rejects.  Matches of the remaining two patterns
are not checked at all. -/
def validate_match (p : PatternName) (gs : List String) : Bool :=
  if pageCheckedPattern p then
    match groupNegOne gs, groupNegTwo gs with
    | some pageStr, some titleRaw =>
      match pyInt? pageStr with
      | none => false
      | some page =>
        if page < 1 ∨ 5000 < page then false
        else
          let title := pyStrip titleRaw
          if title.length < 2 ∨ 200 < title.length then false
          else if 10 * (title.data.countP Char.isAlpha) < 3 * title.length then false
          else true
    | _, _ => false
  else true

/-- Inclusive character spans `[s1, e1]` and `[s2, e2]` intersect
(`any(pos in range(start, end + 1) for pos in used_positions)` against
the union of previously accepted spans). -/
def spanOverlap (s1 e1 s2 e2 : Nat) : Bool := s1 ≤ e2 && s2 ≤ e1

/-- The accept loop of `_filter_matches` over position-sorted matches:
skip a match overlapping an accepted span; otherwise accept it exactly
when `_validate_match` passes, remembering its span. -/
def filter_loop : List (PatternName × RawMatch) → List (Nat × Nat) → List (PatternName × RawMatch)
  | [], _ => []
  | (p, m) :: rest, used =>
    if used.any (fun u => spanOverlap m.startPos m.endPos u.1 u.2) then
      filter_loop rest used
    else if validate_match p m.groups then
      (p, m) :: filter_loop rest ((m.startPos, m.endPos) :: used)
    else filter_loop rest used

/-- Position order used by `matches.sort(key=lambda x: x[1].start())`. -/
def matchPosOrder (a b : PatternName × RawMatch) : Prop := a.2.startPos ≤ b.2.startPos

instance : DecidableRel matchPosOrder := fun a b =>
  inferInstanceAs (Decidable (a.2.startPos ≤ b.2.startPos))

/-- `_filter_matches`. -/
def filter_matches (ms : List (PatternName × RawMatch)) : List (PatternName × RawMatch) :=
  filter_loop (List.insertionSort matchPosOrder ms) []

/-- `_match_to_entry`: build the provisional `TOCEntry` for one match;
`none` models the caught `ValueError`/`IndexError`. -/
def match_to_entry (p : PatternName) (m : RawMatch) : Option TOCEntry := do
  let mk (section_id title : String) (page : Int) : TOCEntry :=
    { section_id := section_id
      title := title
      page := page
      level := 0
      parent_id := none
      full_path := if section_id ≠ ("REF") then section_id ++ (" ") ++ title else title
      tags := []
      confidence_score := 0
      raw_line := m.group0 }
  match p with
  | .standard | .spaced | .indented => do
    let g0 ← m.groups[0]?
    let g1 ← m.groups[1]?
    let g2 ← m.groups[2]?
    let page ← pyInt? g2
    pure (mk g0 (pyStrip g1) page)
  | .appendix | .chapter => do
    let g0 ← m.groups[0]?
    let g1 ← m.groups[1]?
    let g2 ← m.groups[2]?
    let page ← pyInt? g2
    pure (mk (pyStrip g0) (pyStrip g1) page)
  | .table_figure => do
    let g0 ← m.groups[0]?
    let g1 ← m.groups[1]?
    let g2 ← m.groups[2]?
    let g3 ← m.groups[3]?
    let page ← pyInt? g3
    pure (mk (g0 ++ (" ") ++ g1) (pyStrip g2) page)
  | .references => do
    let g0 ← m.groups[0]?
    let g1 ← m.groups[1]?
    let page ← pyInt? g1
    pure (mk ("REF") (pyStrip g0) page)

/-- The value `_section_sort_key` returns: either a tuple of integers
(numeric ids, zero-padded to length ≥ 5) or a `(band, section_id)`
pair for the special forms. -/
inductive SKey where
  | nums (l : List Int)
  | band (b : Int) (s : String)
deriving DecidableEq, Repr

/-- Pad the integer components to length at least 5 with zeros
(`while len(parts) < 5: parts.append(0)`). -/
def padTo5 (l : List Int) : List Int := l ++ List.replicate (5 - l.length) 0

/-- Integer components of a numeric section id (`[int(x) for x in
section_id.split('.')]`). -/
def idComponents (s : String) : List Int :=
  (splitOnChar '.' s.data).map
    (fun cs => cs.foldl (fun acc c => acc * 10 + ((c.toNat : Int) - ('0'.toNat : Int))) 0)

/-- `_section_sort_key`. -/
def section_sort_key (section_id : String) : SKey :=
  if pyStartsWith section_id ("Appendix") || pyStartsWith section_id ("APPENDIX") then
    .band 1000 section_id
  else if section_id = ("REF") then .band 2000 section_id
  else if pyStartsWith section_id ("Table") || pyStartsWith section_id ("Figure") then
    .band 3000 section_id
  else if isNumericId section_id then .nums (padTo5 (idComponents section_id))
  else .band 5000 section_id

/-- The full sort key of `_create_toc_entries`:
`(x.page, self._section_sort_key(x.section_id))`. -/
def entryKey (e : TOCEntry) : Int × SKey := (e.page, section_sort_key e.section_id)

/-- Embedding of an `SKey` into a linearly ordered type.  The first
component is the value Python compares first (the first integer of a
numeric tuple, or the band constant); where Python would go on to
compare an `int` against a `str` and raise `TypeError`, this total
order places numeric keys first. -/
def skeyVal (k : SKey) : Int ×ₗ (Nat ×ₗ (List Int ×ₗ String)) :=
  match k with
  | .nums l => toLex (l.headD 0, toLex (0, toLex (l, ("" : String))))
  | .band b s => toLex (b, toLex (1, toLex (([] : List Int), s)))

/-- The linear-order value of the full `(page, sort-key)` tuple. -/
def entryKeyVal (e : TOCEntry) : Int ×ₗ (Int ×ₗ (Nat ×ₗ (List Int ×ₗ String))) :=
  toLex (e.page, skeyVal (section_sort_key e.section_id))

/-- Order on entries realised by the stable
`entries.sort(key=lambda x: (x.page, self._section_sort_key(x.section_id)))`. -/
def entryOrder (a b : TOCEntry) : Prop := entryKeyVal a ≤ entryKeyVal b

instance : DecidableRel entryOrder := fun a b =>
  inferInstanceAs (Decidable (entryKeyVal a ≤ entryKeyVal b))

instance : IsTotal TOCEntry entryOrder := ⟨fun a b => le_total (entryKeyVal a) (entryKeyVal b)⟩

instance : IsTrans TOCEntry entryOrder := ⟨fun _ _ _ h1 h2 => le_trans h1 h2⟩

/-- Order on strings used for Python `sorted` on tag strings. -/
def strOrder (a b : String) : Prop := a.data ≤ b.data

instance : DecidableRel strOrder := fun a b => inferInstanceAs (Decidable (a.data ≤ b.data))

instance : IsTotal String strOrder := ⟨fun a b => le_total a.data b.data⟩

instance : IsTrans String strOrder := ⟨fun _ _ _ h1 h2 => le_trans h1 h2⟩

/-- `_create_toc_entries`: convert the surviving matches and sort by
`(page, hierarchical sort key)`. -/
def create_toc_entries (ms : List (PatternName × RawMatch)) : List TOCEntry :=
  List.insertionSort entryOrder (ms.filterMap (fun pm => match_to_entry pm.1 pm.2))

/-- `_calculate_level`. -/
def calculate_level (section_id : String) : Int :=
  if pyStartsWith section_id ("Appendix") || pyStartsWith section_id ("APPENDIX") then 1
  else if pyStartsWith section_id ("Chapter") || pyStartsWith section_id ("CHAPTER") then 1
  else if pyStartsWith section_id ("Table") || pyStartsWith section_id ("Figure") then 3
  else if section_id = ("REF") then 1
  else if isNumericId section_id then (section_id.data.count '.' : Int) + 1
  else 1

/-- `_find_parent_id`. -/
def find_parent_id (section_id : String) : Option String :=
  if pyStartsWith section_id ("Appendix") || pyStartsWith section_id ("APPENDIX") ||
      pyStartsWith section_id ("Chapter") || pyStartsWith section_id ("CHAPTER") ||
      pyStartsWith section_id ("REF") then none
  else if isDottedNumericId section_id then
    let parts := splitOnChar '.' section_id.data
    if 1 < parts.length then some ⟨List.intercalate ['.'] parts.dropLast⟩ else none
  else none

/-- `_assign_hierarchical_structure`. -/
def assign_hierarchical_structure (entries : List TOCEntry) : List TOCEntry :=
  entries.map (fun e =>
    { e with level := calculate_level e.section_id, parent_id := find_parent_id e.section_id })

/-- `_calculate_confidence_scores`: base 0.7, +0.2 for a numeric id, a
page-position bonus of `min(0.1, max(0, 1 - |page - 50| / 1000))`,
+0.1 for a title of length 5..100, −0.2 for a title shorter than 3 or
longer than 150, clamped to `[0, 1]`. -/
def calculate_confidence_scores (entries : List TOCEntry) : List TOCEntry :=
  entries.map (fun e =>
    let s0 : ℚ := 7/10
    let s1 : ℚ := if isNumericId e.section_id then s0 + 2/10 else s0
    let s2 : ℚ := s1 + min (1/10) (max 0 (1 - |(e.page : ℚ) - 50| / 1000))
    let s3 : ℚ := if 5 ≤ e.title.length ∧ e.title.length ≤ 100 then s2 + 1/10 else s2
    let s4 : ℚ := if e.title.length < 3 ∨ 150 < e.title.length then s3 - 2/10 else s3
    { e with confidence_score := clampQ s4 })

/-- The `tag_mapping` table of `_generate_semantic_tags` (regex
pattern, tags it contributes). -/
def tag_mapping : List (String × List String) :=
  [("\\b(power|delivery|pd)\\b", ["power", "delivery"]),
   ("\\b(message|communication|protocol)\\b", ["communication", "protocol"]),
   ("\\b(cable|connector|plug)\\b", ["hardware", "cable"]),
   ("\\b(voltage|current|electrical)\\b", ["electrical"]),
   ("\\b(contract|negotiation|capability)\\b", ["negotiation", "contracts"]),
   ("\\b(source|sink|provider|consumer)\\b", ["roles"]),
   ("\\b(state|machine|transition)\\b", ["state_machine"]),
   ("\\b(table|format|structure)\\b", ["data_structure"]),
   ("\\b(error|exception|fault)\\b", ["error_handling"]),
   ("\\b(test|compliance|certification)\\b", ["testing"]),
   ("\\b(security|authentication|encryption)\\b", ["security"]),
   ("\\b(appendix|reference|index)\\b", ["reference"])]

/-- `_generate_semantic_tags`: keyword tags from the mapping table,
plus `chapter` for level-1 and `subsection` for level-≥3 entries,
deduplicated and sorted. -/
def generate_semantic_tags (re : TocRe) (entries : List TOCEntry) : List TOCEntry :=
  entries.map (fun e =>
    let tl := pyLower e.title
    let fromTable :=
      (tag_mapping.filterMap (fun pt => if re.tagSearch pt.1 tl then some pt.2 else none)).flatten
    let withLevel := fromTable ++
      (if e.level = 1 then [("chapter")] else if 3 ≤ e.level then [("subsection")] else [])
    { e with tags := List.insertionSort strOrder withLevel.eraseDups })

/-- `parse_toc_text`: preprocess, collect pattern matches, filter and
deduplicate, build entries, assign hierarchy, score confidence,
generate tags. -/
def parse_toc_text (re : TocRe) (text : String) : List TOCEntry :=
  let cleaned := preprocess_text re text
  let entries := create_toc_entries (filter_matches (re.collect cleaned))
  generate_semantic_tags re
    (calculate_confidence_scores (assign_hierarchical_structure entries))

/- ## Section boundary mapper (`document_parser.py`) -/

/-- Behaviour of the external `re` engine inside the document parser:
`findStart`/`findEnd` are the outcomes of `_find_section_start_in_page`
and `_find_section_end_in_page` (both return a string in the source;
an empty string models a falsy return), and the four counters are the
summed `findall` counts over the table / figure / code / state-machine
pattern lists of `_analyze_content`. -/
structure DocRe where
  findStart : String → TOCEntry → String
  findEnd : String → TOCEntry → String
  tableCount : String → Nat
  figureCount : String → Nat
  codeCount : String → Nat
  smCount : String → Nat

/-- Result record of `_analyze_content`. -/
structure ContentAnalysis where
  content_type : String
  has_tables : Bool
  has_figures : Bool
  table_count : Nat
  figure_count : Nat
  word_count : Nat
  code_indicators : Nat
  state_machine_indicators : Nat
  low_quality_indicators : Nat
deriving DecidableEq, Repr

/-- Share of non-ASCII characters:
`sum(1 for c in content if ord(c) > 127) / max(1, len(content))`. -/
def nonAsciiShare (content : String) : ℚ :=
  ((content.data.countP (fun c => 127 < c.toNat) : ℚ)) / (max 1 content.length : Nat)

/-- `_determine_content_type`: per-type scores, `mixed` when more than
two types score above 2, otherwise the first highest-scoring type in
dict insertion order. -/
def determine_content_type (has_tables has_figures : Bool)
    (code_indicators state_machine_indicators word_count : Nat) : String :=
  let type_scores : List (String × Nat) :=
    [(("table"), if has_tables then 3 else 0),
     (("figure"), if has_figures then 3 else 0),
     (("code"), min code_indicators 5),
     (("protocol"), min code_indicators 5),
     (("state_machine"), min (state_machine_indicators * 2) 5),
     (("text"), min (word_count / 50) 5)]
  let active := type_scores.filter (fun ts => 2 < ts.2)
  if 2 < active.length then ("mixed")
  else
    (type_scores.foldl (fun best cur => if best.2 < cur.2 then cur else best)
      (("table"), if has_tables then 3 else 0)).1

/-- `_analyze_content`.  Empty (or whitespace-only) content returns the
fixed low-quality record; the unset `code_indicators` /
`state_machine_indicators` keys of that branch are rendered as 0 (they
are never read). -/
def analyze_content (re : DocRe) (content : String) : ContentAnalysis :=
  if pyStrip content = ("") then
    { content_type := ("text"), has_tables := false, has_figures := false
      table_count := 0, figure_count := 0, word_count := 0
      code_indicators := 0, state_machine_indicators := 0, low_quality_indicators := 1 }
  else
    let table_count := re.tableCount content
    let figure_count := re.figureCount content
    let code_indicators := re.codeCount content
    let state_machine_indicators := re.smCount content
    let word_count := pyWordCount content
    let low_quality_indicators :=
      (if word_count < 10 then 1 else 0) +
      (if (pyStrip content).length < 50 then 1 else 0) +
      (if 1/10 < nonAsciiShare content then 1 else 0)
    { content_type := determine_content_type (0 < table_count) (0 < figure_count)
        code_indicators state_machine_indicators word_count
      has_tables := 0 < table_count
      has_figures := 0 < figure_count
      table_count := table_count
      figure_count := figure_count
      word_count := word_count
      code_indicators := code_indicators
      state_machine_indicators := state_machine_indicators
      low_quality_indicators := low_quality_indicators }

/-- The `type_title_matches` table of `_calculate_section_confidence`. -/
def type_title_matches : List (String × List String) :=
  [(("table"), [("table"), ("format"), ("structure")]),
   (("figure"), [("figure"), ("diagram"), ("illustration")]),
   (("protocol"), [("protocol"), ("message"), ("communication")]),
   (("state_machine"), [("state"), ("machine"), ("transition")]),
   (("code"), [("format"), ("encoding"), ("field")])]

/-- `_calculate_section_confidence`: base 0.6, word-count reward or
short-content penalty, quality-flag reward or proportional penalty,
+0.1 when a keyword of the inferred content type occurs in the title,
averaged with the ToC entry confidence and clamped to `[0, 1]`. -/
def calculate_section_confidence (e : TOCEntry) (ca : ContentAnalysis) : ℚ :=
  let s0 : ℚ := 6/10
  let wc := ca.word_count
  let s1 : ℚ := if 50 < wc then s0 + min (2/10) ((wc : ℚ) / 500) else s0 - 3/10
  let s2 : ℚ :=
    if ca.low_quality_indicators = 0 then s1 + 2/10
    else s1 - (ca.low_quality_indicators : ℚ) * (1/10)
  let tl := pyLower e.title
  let s3 : ℚ :=
    match type_title_matches.find? (fun kv => kv.1 = ca.content_type) with
    | some kv => if kv.2.any (fun k => pyContainsSub tl k) then s2 + 1/10 else s2
    | none => s2
  clampQ ((s3 + e.confidence_score) / 2)

/-- `_create_document_section` (its `try` body never raises in the
model, so the `Optional` wrapper of the source is always `some`). -/
def create_document_section (re : DocRe) (e : TOCEntry) (start_page : Int)
    (end_page : Option Int) (content : String) : DocumentSection :=
  let ca := analyze_content re content
  let confidence := calculate_section_confidence e ca
  let notes :=
    (if end_page = none then [("Section continues to end of document")] else []) ++
    (if 0 < ca.low_quality_indicators then
      [("Content quality indicators suggest extraction issues")] else [])
  { section_id := e.section_id
    title := e.title
    page_start := start_page
    page_end := end_page
    level := e.level
    parent_id := e.parent_id
    full_path := e.full_path
    content := content
    content_type := ca.content_type
    has_tables := ca.has_tables
    has_figures := ca.has_figures
    table_count := ca.table_count
    figure_count := ca.figure_count
    word_count := ca.word_count
    tags := e.tags
    confidence_score := confidence
    extraction_notes := notes }

/-- The scan of `_determine_section_end_page` over the entries after
the current one: the first later entry at the same or a higher level
(level number ≤ the current one) ends the section one page before its
own start; deeper entries are skipped; no such entry means the section
is open-ended. -/
def determine_end_from (lvl : Int) : List TOCEntry → Option Int
  | [] => none
  | e :: rest => if e.level ≤ lvl then some (e.page - 1) else determine_end_from lvl rest

/-- Last-wins lookup in the `page_content_map` dict comprehension. -/
def lookupPageRec (pages : List PageExtraction) (n : Int) : Option PageExtraction :=
  pages.reverse.find? (fun p => p.page_number = n)

/-- `max(page_content_map.keys())` (`none` models the `ValueError` on
an empty corpus). -/
def maxPageNum (pages : List PageExtraction) : Option Int :=
  (pages.map (·.page_number)).max?

/-- `range(start_page, actual_end + 1)` over `Int`. -/
def intRange (start stop : Int) : List Int :=
  (List.range (stop + 1 - start).toNat).map (fun i => start + i)

/-- `_extract_section_content`.  `actual_end = end_page or
max(page_content_map.keys())` keeps Python truthiness: a present but
zero `end_page` also falls back to the maximal page.  The result is
`none` exactly when the `max` of an empty corpus raises. -/
def extract_section_content (re : DocRe) (start_page : Int) (end_page : Option Int)
    (pages : List PageExtraction) (e : TOCEntry) : Option String :=
  let actual? : Option Int :=
    match end_page with
    | some v => if v = 0 then maxPageNum pages else some v
    | none => maxPageNum pages
  match actual? with
  | none => none
  | some actual =>
    let parts := (intRange start_page actual).filterMap (fun n =>
      match lookupPageRec pages n with
      | none => none
      | some pg =>
        let c0 := pg.text
        let c1 :=
          if n = start_page then
            let t := re.findStart c0 e
            if t ≠ ("") then t else c0
          else c0
        let c2 :=
          if n = actual ∧ end_page ≠ none then
            let t := re.findEnd c1 e
            if t ≠ ("") then t else c1
          else c1
        some c2)
    some (pyJoin ("\n\n") parts)

/-- The per-entry loop of `parse_document_sections` over the
page-sorted entry list, each entry paired with the entries after it. -/
def parse_sections_loop (re : DocRe) (pages : List PageExtraction) :
    List TOCEntry → List DocumentSection
  | [] => []
  | e :: rest =>
    let end_page := determine_end_from e.level rest
    match extract_section_content re e.page end_page pages e with
    | none => parse_sections_loop re pages rest
    | some content =>
      create_document_section re e e.page end_page content :: parse_sections_loop re pages rest

/-- Page order used by `sorted(toc_entries, key=lambda x: x.page)`. -/
def pageOrder (a b : TOCEntry) : Prop := a.page ≤ b.page

instance : DecidableRel pageOrder := fun a b => inferInstanceAs (Decidable (a.page ≤ b.page))

instance : IsTotal TOCEntry pageOrder := ⟨fun a b => le_total a.page b.page⟩

instance : IsTrans TOCEntry pageOrder := ⟨fun _ _ _ h1 h2 => le_trans h1 h2⟩

/-- `parse_document_sections`. -/
def parse_document_sections (re : DocRe) (toc_entries : List TOCEntry)
    (page_extractions : List PageExtraction) : List DocumentSection :=
  parse_sections_loop re page_extractions (List.insertionSort pageOrder toc_entries)

/- ## Cross-validation engine (`validation_report.py`) -/

/-- One row of `missing_sections`. -/
structure MissingRow where
  section_id : String
  title : String
  page : Int
  level : Int
  issue : String
deriving DecidableEq, Repr

/-- One row of `extra_sections`. -/
structure ExtraRow where
  section_id : String
  title : String
  page_start : Int
  level : Int
  issue : String
deriving DecidableEq, Repr

/-- One row of `page_mismatches`. -/
structure MismatchRow where
  section_id : String
  title : String
  toc_page : Int
  document_page : Int
  difference : Int
  issue : String
deriving DecidableEq, Repr

/-- One row of `section_comparison`. -/
structure CompRow where
  section_id : String
  toc_title : String
  doc_title : String
  toc_page : Int
  doc_page_start : Int
  doc_page_end : Option Int
  toc_level : Int
  doc_level : Int
  toc_parent : Option String
  doc_parent : Option String
  toc_confidence : ℚ
  doc_confidence : ℚ
  word_count : Nat
  content_type : String
  has_tables : Bool
  has_figures : Bool
  issues : String
  status : String
deriving DecidableEq, Repr

/-- One row of `quality_issues`. -/
structure QualityRow where
  section_id : String
  title : String
  page_start : Int
  confidence_score : ℚ
  word_count : Nat
  content_length : Nat
  issues : String
  severity : String
deriving DecidableEq, Repr

/-- The `statistics` block of `_calculate_validation_statistics`. -/
structure ValidationStats where
  toc_sections_count : Nat
  document_sections_count : Nat
  matched_sections_count : Nat
  missing_sections_count : Nat
  extra_sections_count : Nat
  page_mismatches_count : Nat
  quality_issues_count : Nat
  toc_match_rate : ℚ
  document_match_rate : ℚ
  overall_match_rate : ℚ
  toc_level_distribution : List (Int × Nat)
  document_level_distribution : List (Int × Nat)
  content_type_distribution : List (String × Nat)
  average_confidence_score : ℚ
  average_word_count : ℚ
  total_word_count : Nat
  total_tables : Nat
  total_figures : Nat
deriving DecidableEq, Repr

/-- The `summary` block of `_generate_validation_summary` (the
formatted `text` f-string is omitted; its inputs all appear in the
statistics). -/
structure ValidationSummary where
  status : String
  color : String
  overall_match_rate : ℚ
deriving DecidableEq, Repr

/-- The full `validation_results` record. -/
structure ValidationResult where
  summary : ValidationSummary
  section_comparison : List CompRow
  missing_sections : List MissingRow
  extra_sections : List ExtraRow
  page_mismatches : List MismatchRow
  quality_issues : List QualityRow
  statistics : ValidationStats
deriving DecidableEq, Repr

/-- Last-wins dict lookup for `{entry.section_id: entry for entry in toc_entries}`. -/
def tocLookup (toc : List TOCEntry) (k : String) : Option TOCEntry :=
  toc.reverse.find? (fun e => e.section_id = k)

/-- Last-wins dict lookup for `{section.section_id: section for section in document_sections}`. -/
def secLookup (secs : List DocumentSection) (k : String) : Option DocumentSection :=
  secs.reverse.find? (fun s => s.section_id = k)

/-- Deduplication worker carrying the already-seen keys. -/
def pyDedupAux {α : Type} [DecidableEq α] : List α → List α → List α
  | _, [] => []
  | seen, a :: t =>
    if a ∈ seen then pyDedupAux seen t else a :: pyDedupAux (a :: seen) t

/-- First-occurrence deduplication: the key iteration order of a
Python dict built by repeated insertion. -/
def pyDedup {α : Type} [DecidableEq α] (l : List α) : List α := pyDedupAux [] l

/-- The distinct ToC section ids, in first-occurrence order (the keys
of `toc_map`). -/
def tocIds (toc : List TOCEntry) : List String := pyDedup (toc.map (·.section_id))

/-- The distinct document-section ids, in first-occurrence order (the
keys of `section_map`). -/
def secIds (secs : List DocumentSection) : List String :=
  pyDedup (secs.map (·.section_id))

/-- The ids present in both maps (`set(toc_map.keys()) &
set(section_map.keys())`; Python set iteration order is unspecified,
the model fixes first-occurrence order in the ToC). -/
def commonIds (toc : List TOCEntry) (secs : List DocumentSection) : List String :=
  (tocIds toc).filter (fun k => (secs.map (·.section_id)).contains k)

/-- `str(x)` on an optional string (`None` prints as `None`). -/
def pyOptStr : Option String → String
  | none => ("None")
  | some s => s

/-- The `missing_sections` half of `_validate_section_coverage`. -/
def missing_sections_of (toc : List TOCEntry) (secs : List DocumentSection) :
    List MissingRow :=
  (tocIds toc).filterMap (fun k =>
    if (secs.map (·.section_id)).contains k then none
    else (tocLookup toc k).map (fun e =>
      { section_id := k, title := e.title, page := e.page, level := e.level
        issue := ("Missing from document sections") }))

/-- The `extra_sections` half of `_validate_section_coverage`. -/
def extra_sections_of (toc : List TOCEntry) (secs : List DocumentSection) :
    List ExtraRow :=
  (secIds secs).filterMap (fun k =>
    if (toc.map (·.section_id)).contains k then none
    else (secLookup secs k).map (fun s =>
      { section_id := k, title := s.title, page_start := s.page_start, level := s.level
        issue := ("Not found in ToC") }))

/-- `_validate_page_consistency`. -/
def page_mismatches_of (toc : List TOCEntry) (secs : List DocumentSection) :
    List MismatchRow :=
  (commonIds toc secs).filterMap (fun k =>
    match tocLookup toc k, secLookup secs k with
    | some e, some s =>
      if e.page ≠ s.page_start then
        some { section_id := k, title := e.title, toc_page := e.page
               document_page := s.page_start, difference := |e.page - s.page_start|
               issue := ("Page number mismatch") }
      else none
    | _, _ => none)

/-- The comparison row `_validate_hierarchical_structure` builds for
one id present in both maps. -/
def comp_row_of (k : String) (e : TOCEntry) (s : DocumentSection) : CompRow :=
  let issues : List String :=
    (if e.level ≠ s.level then
      [("Level mismatch: ToC=") ++ toString e.level ++ (", Doc=") ++ toString s.level]
     else []) ++
    (if e.parent_id ≠ s.parent_id then
      [("Parent mismatch: ToC=") ++ pyOptStr e.parent_id ++ (", Doc=") ++ pyOptStr s.parent_id]
     else []) ++
    (if pyStrip e.title ≠ pyStrip s.title then [("Title mismatch")] else [])
  { section_id := k
    toc_title := e.title
    doc_title := s.title
    toc_page := e.page
    doc_page_start := s.page_start
    doc_page_end := s.page_end
    toc_level := e.level
    doc_level := s.level
    toc_parent := e.parent_id
    doc_parent := s.parent_id
    toc_confidence := e.confidence_score
    doc_confidence := s.confidence_score
    word_count := s.word_count
    content_type := s.content_type
    has_tables := s.has_tables
    has_figures := s.has_figures
    issues := if issues ≠ [] then pyJoin ("; ") issues else ("No issues")
    status := if issues ≠ [] then ("Issues found") else ("OK") }

/-- `_validate_hierarchical_structure`. -/
def section_comparison_of (toc : List TOCEntry) (secs : List DocumentSection) :
    List CompRow :=
  (commonIds toc secs).filterMap (fun k =>
    match tocLookup toc k, secLookup secs k with
    | some e, some s => some (comp_row_of k e s)
    | _, _ => none)

/-- Truthiness test `section.page_end and section.page_end <
section.page_start` from `_validate_content_quality`: a present and
nonzero `page_end` is compared; `None` and `0` are both falsy. -/
def invalidPageRange (s : DocumentSection) : Bool :=
  match s.page_end with
  | none => false
  | some v => v ≠ 0 && v < s.page_start

/-- The quality row `_validate_content_quality` builds for one
section: `some` exactly when at least one of the five checks fires
(the `:.2f` float formatting inside the low-confidence message is
omitted). -/
def quality_row_of (s : DocumentSection) : Option QualityRow :=
  let issues : List String :=
    (if s.confidence_score < 1/2 then [("Low confidence score")] else []) ++
    (if s.word_count < 10 then
      [("Very short content: ") ++ toString s.word_count ++ (" words")] else []) ++
    (if pyStrip s.content = ("") then [("Empty content")] else []) ++
    (if s.extraction_notes ≠ [] then
      [("Extraction warnings: ") ++ pyJoin ("; ") s.extraction_notes] else []) ++
    (if invalidPageRange s then [("Invalid page range")] else [])
  if issues ≠ [] then
    some { section_id := s.section_id
           title := s.title
           page_start := s.page_start
           confidence_score := s.confidence_score
           word_count := s.word_count
           content_length := s.content.length
           issues := pyJoin ("; ") issues
           severity :=
             if s.confidence_score < 3/10 ∨ s.word_count < 5 then ("High") else ("Medium") }
  else none

/-- `_validate_content_quality`. -/
def validate_content_quality (secs : List DocumentSection) : List QualityRow :=
  secs.filterMap quality_row_of

/-- Frequency table in first-occurrence key order (a `defaultdict(int)`
filled by iteration). -/
def countBy {α : Type} [DecidableEq α] (keys : List α) : List (α × Nat) :=
  keys.eraseDups.map (fun k => (k, keys.count k))

/-- `_calculate_validation_statistics` given the already-computed issue
lists. -/
def calculate_validation_statistics (toc : List TOCEntry) (secs : List DocumentSection)
    (missingCount extraCount mismatchCount qualityCount : Nat) : ValidationStats :=
  let toc_count := toc.length
  let doc_count := secs.length
  let matched_count := (tocIds toc).countP (fun k => (secs.map (·.section_id)).contains k)
  let toc_match_rate : ℚ := (matched_count : ℚ) / (max 1 toc_count : Nat)
  let doc_match_rate : ℚ := (matched_count : ℚ) / (max 1 doc_count : Nat)
  { toc_sections_count := toc_count
    document_sections_count := doc_count
    matched_sections_count := matched_count
    missing_sections_count := missingCount
    extra_sections_count := extraCount
    page_mismatches_count := mismatchCount
    quality_issues_count := qualityCount
    toc_match_rate := toc_match_rate
    document_match_rate := doc_match_rate
    overall_match_rate := (toc_match_rate + doc_match_rate) / 2
    toc_level_distribution := countBy (toc.map (·.level))
    document_level_distribution := countBy (secs.map (·.level))
    content_type_distribution := countBy (secs.map (·.content_type))
    average_confidence_score :=
      if secs ≠ [] then (secs.map (·.confidence_score)).sum / secs.length else 0
    average_word_count :=
      if secs ≠ [] then ((secs.map (·.word_count)).sum : ℚ) / secs.length else 0
    total_word_count := (secs.map (·.word_count)).sum
    total_tables := (secs.map (·.table_count)).sum
    total_figures := (secs.map (·.figure_count)).sum }

/-- The categorical status of `_generate_validation_summary`. -/
def summary_status (rate : ℚ) (quality_issues_count : Nat) : String :=
  if 95/100 ≤ rate ∧ quality_issues_count = 0 then ("Excellent")
  else if 85/100 ≤ rate ∧ quality_issues_count ≤ 2 then ("Good")
  else if 70/100 ≤ rate then ("Fair")
  else ("Poor")

/-- The status colour of `_generate_validation_summary`. -/
def summary_color (rate : ℚ) (quality_issues_count : Nat) : String :=
  if 95/100 ≤ rate ∧ quality_issues_count = 0 then ("green")
  else if 85/100 ≤ rate ∧ quality_issues_count ≤ 2 then ("yellow")
  else if 70/100 ≤ rate then ("orange")
  else ("red")

/-- `_generate_validation_summary`. -/
def generate_validation_summary (stats : ValidationStats) : ValidationSummary :=
  { status := summary_status stats.overall_match_rate stats.quality_issues_count
    color := summary_color stats.overall_match_rate stats.quality_issues_count
    overall_match_rate := stats.overall_match_rate }

/-- `validate_parsing_results`: run the five checks, aggregate the
statistics, and derive the summary. -/
def validate_parsing_results (toc : List TOCEntry) (secs : List DocumentSection) :
    ValidationResult :=
  let missing := missing_sections_of toc secs
  let extra := extra_sections_of toc secs
  let mismatches := page_mismatches_of toc secs
  let comparison := section_comparison_of toc secs
  let quality := validate_content_quality secs
  let stats := calculate_validation_statistics toc secs
    missing.length extra.length mismatches.length quality.length
  { summary := generate_validation_summary stats
    section_comparison := comparison
    missing_sections := missing
    extra_sections := extra
    page_mismatches := mismatches
    quality_issues := quality
    statistics := stats }

/- ## Helper lemmas -/

theorem clampQ_nonneg (s : ℚ) : 0 ≤ clampQ s := le_max_left 0 _

theorem clampQ_le_one (s : ℚ) : clampQ s ≤ 1 := max_le (by norm_num) (min_le_left 1 s)

theorem head_of_pyStartsWith {s p : String} {a : Char}
    (hp : p.data.head? = some a) (h : pyStartsWith s p = true) : s.data.head? = some a := by
  unfold pyStartsWith at h
  rw [ List.isPrefixOf_iff_prefix] at h
  cases hps : p.data with
  | nil => rw [hps] at hp; simp at hp
  | cons b bs =>
    rw [hps] at hp h
    cases hss : s.data with
    | nil => rw [hss] at h; simp at h
    | cons c cs =>
      rw [hss] at h
      rw [List.cons_prefix_cons] at h
      obtain ⟨hbc, -⟩ := h
      simp only [List.head?_cons, Option.some.injEq] at hp
      simp [List.head?_cons, ← hbc, hp]

theorem pyStartsWith_eq_false_of_head {s p : String} {c a : Char}
    (hs : s.data.head? = some c) (hp : p.data.head? = some a) (hne : c ≠ a) :
    pyStartsWith s p = false := by
  rw [Bool.eq_false_iff]
  intro h
  have hh := head_of_pyStartsWith hp h
  rw [hs] at hh
  simp only [Option.some.injEq] at hh
  exact hne hh

theorem isNumericId_head {s : String} (h : isNumericId s = true) :
    ∃ c cs, s.data = c :: cs ∧ c.isDigit = true := by
  unfold isNumericId at h
  cases hss : s.data with
  | nil => rw [hss] at h; simp at h
  | cons c cs =>
    rw [hss] at h
    simp only [Bool.and_eq_true] at h
    exact ⟨c, cs, rfl, h.1⟩

theorem pyStartsWith_eq_false_of_numeric {s : String} (h : isNumericId s = true)
    {p : String} {a : Char} (hp : p.data.head? = some a) (ha : a.isDigit = false) :
    pyStartsWith s p = false := by
  obtain ⟨c, cs, hss, hc⟩ := isNumericId_head h
  have hhead : s.data.head? = some c := by rw [hss]; rfl
  refine pyStartsWith_eq_false_of_head hhead hp ?_
  intro hca
  rw [hca] at hc
  rw [hc] at ha
  cases ha

theorem numeric_ne_REF {s : String} (h : isNumericId s = true) : s ≠ ("REF") := by
  intro he
  rw [he] at h
  exact absurd h (by decide)

theorem splitOnChar_ne_nil (sep : Char) (cs : List Char) : splitOnChar sep cs ≠ [] := by
  induction cs with
  | nil => simp [splitOnChar]
  | cons c t ih =>
    by_cases hc : c = sep
    · simp [splitOnChar, hc]
    · obtain ⟨h1, t1, heq⟩ := List.exists_cons_of_ne_nil ih
      simp [splitOnChar, hc, heq]

theorem splitOnChar_length (sep : Char) (cs : List Char) :
    (splitOnChar sep cs).length = cs.count sep + 1 := by
  induction cs with
  | nil => simp [splitOnChar]
  | cons c t ih =>
    by_cases hc : c = sep
    · simp [splitOnChar, hc, List.count_cons, ih]
    · obtain ⟨h1, t1, heq⟩ := List.exists_cons_of_ne_nil (splitOnChar_ne_nil sep t)
      rw [heq] at ih
      simp only [List.length_cons] at ih
      simp [splitOnChar, hc, heq, List.count_cons, ih]

theorem determine_end_from_eq_find? (lvl : Int) (l : List TOCEntry) :
    determine_end_from lvl l =
      (l.find? (fun e => decide (e.level ≤ lvl))).map (fun e => e.page - 1) := by
  induction l with
  | nil => rfl
  | cons e t ih =>
    by_cases h : e.level ≤ lvl <;> simp [determine_end_from, List.find?_cons, h, ih]

theorem determine_end_from_some {lvl : Int} {l : List TOCEntry} {v : Int}
    (h : determine_end_from lvl l = some v) : ∃ e ∈ l, v = e.page - 1 ∧ e.level ≤ lvl := by
  induction l with
  | nil => simp [determine_end_from] at h
  | cons e t ih =>
    by_cases hl : e.level ≤ lvl
    · simp only [determine_end_from, if_pos hl, Option.some.injEq] at h
      exact ⟨e, by simp, h.symm, hl⟩
    · simp only [determine_end_from, if_neg hl] at h
      obtain ⟨x, hx, hv, hxl⟩ := ih h
      exact ⟨x, by simp [hx], hv, hxl⟩

theorem parse_sections_loop_mem {re : DocRe} {pages : List PageExtraction} :
    ∀ {l : List TOCEntry} {s : DocumentSection}, s ∈ parse_sections_loop re pages l →
      ∃ pre e rest content,
        l = pre ++ e :: rest ∧
        extract_section_content re e.page (determine_end_from e.level rest) pages e =
          some content ∧
        s = create_document_section re e e.page (determine_end_from e.level rest) content := by
  intro l
  induction l with
  | nil => intro s h; simp [parse_sections_loop] at h
  | cons a t ih =>
    intro s h
    rw [parse_sections_loop] at h
    cases hx : extract_section_content re a.page (determine_end_from a.level t) pages a with
    | none =>
      rw [hx] at h
      obtain ⟨pre, e, rest, c, heq, hex, hs⟩ := ih h
      exact ⟨a :: pre, e, rest, c, by rw [heq]; rfl, hex, hs⟩
    | some c =>
      rw [hx] at h
      rcases List.mem_cons.1 h with h1 | h2
      · exact ⟨[], a, t, c, rfl, hx, h1⟩
      · obtain ⟨pre, e, rest, c2, heq, hex, hs⟩ := ih h2
        exact ⟨a :: pre, e, rest, c2, by rw [heq]; rfl, hex, hs⟩

theorem parse_document_sections_mem {re : DocRe} {toc : List TOCEntry}
    {pages : List PageExtraction} {s : DocumentSection}
    (hs : s ∈ parse_document_sections re toc pages) :
    ∃ e ∈ toc, s.section_id = e.section_id ∧ s.title = e.title ∧ s.page_start = e.page ∧
      s.level = e.level ∧ s.parent_id = e.parent_id ∧ s.full_path = e.full_path ∧
      s.tags = e.tags ∧
      ∃ q, s.confidence_score = clampQ q := by
  obtain ⟨pre, e, rest, c, heq, hex, hdef⟩ := parse_sections_loop_mem hs
  have hmem : e ∈ toc := by
    have : e ∈ List.insertionSort pageOrder toc := by rw [heq]; simp
    exact (List.mem_insertionSort pageOrder).1 this
  subst hdef
  exact ⟨e, hmem, rfl, rfl, rfl, rfl, rfl, rfl, rfl, _, rfl⟩

/- ## Concrete fixtures used by witnesses and counterexamples -/

/-- A `DocRe` instance with identity trimming and zero pattern counts
(one admissible behaviour of the regex engine). -/
def trivDocRe : DocRe :=
  { findStart := fun c _ => c
    findEnd := fun c _ => c
    tableCount := fun _ => 0
    figureCount := fun _ => 0
    codeCount := fun _ => 0
    smCount := fun _ => 0 }

/-- A ToC entry with the given id, page and level. -/
def mkEntry (sid : String) (pg lvl : Int) : TOCEntry :=
  { section_id := sid
    title := ("Power Delivery Overview")
    page := pg
    level := lvl
    parent_id := none
    full_path := sid
    tags := []
    confidence_score := 9/10
    raw_line := ("") }

/-- Scenario D of the spec: an entry at page 25, a deeper entry at
page 27 nested inside it, and the next same-level entry at page 30. -/
def scenarioD_toc : List TOCEntry :=
  [mkEntry ("2.1") 25 2, mkEntry ("2.2") 30 2, mkEntry ("2.1.1") 27 3]

/-- A one-page corpus for scenario D. -/
def scenarioD_pages : List PageExtraction := [⟨30, ("page thirty text")⟩]

/-- Two same-level ToC entries starting on the same page. -/
def claim1_toc : List TOCEntry := [mkEntry ("3") 25 1, mkEntry ("4") 25 1]

/-- A one-page corpus for the same-page boundary example. -/
def claim1_pages : List PageExtraction := [⟨25, ("some page text")⟩]

/- ## Claims -/

/-- C5: the Section Boundary Mapper resolves `page_end` as one page
before the first later entry whose level is at most the current
entry's level, skipping deeper entries, and leaves it absent when no
such entry exists.  Part 1: the end-page scan equals a `find?` over
the following entries.  Part 2: every produced section takes its
`page_start` from its ToC entry's page and its `page_end` from that
scan over the entries after it in the page-sorted list.  Part 3:
scenario D — an entry at page 25 whose next same-or-higher-level entry
starts at page 30 (with a deeper entry in between at page 27) resolves
`page_end = 29`, and the last entry resolves no `page_end`. -/
theorem claim5 :
    (∀ (lvl : Int) (l : List TOCEntry),
        determine_end_from lvl l =
          (l.find? (fun e => decide (e.level ≤ lvl))).map (fun e => e.page - 1)) ∧
    (∀ (re : DocRe) (pages : List PageExtraction) (l : List TOCEntry) (s : DocumentSection),
        s ∈ parse_sections_loop re pages l →
          ∃ pre e rest, l = pre ++ e :: rest ∧ s.page_start = e.page ∧
            s.page_end = determine_end_from e.level rest) ∧
    ((parse_document_sections trivDocRe scenarioD_toc scenarioD_pages).map
        (fun s => (s.page_start, s.page_end)) = [(25, some 29), (27, some 29), (30, none)]) := by
  refine ⟨determine_end_from_eq_find?, ?_, by decide⟩
  intro re pages l s hs
  obtain ⟨pre, e, rest, c, heq, hex, hdef⟩ := parse_sections_loop_mem hs
  subst hdef
  exact ⟨pre, e, rest, heq, rfl, rfl⟩

/-- C5 witness: part 2 of the theorem applied to the first section the
mapper produces for scenario D. -/
theorem claim5_witness :
    ∃ pre e rest,
      List.insertionSort pageOrder scenarioD_toc = pre ++ e :: rest ∧
      ((parse_document_sections trivDocRe scenarioD_toc scenarioD_pages).head
          (by decide)).page_start = e.page ∧
      ((parse_document_sections trivDocRe scenarioD_toc scenarioD_pages).head
          (by decide)).page_end = determine_end_from e.level rest :=
  claim5.2.1 trivDocRe scenarioD_pages (List.insertionSort pageOrder scenarioD_toc) _
    (List.head_mem (by decide))

/-- C1 (amended): every produced section with a present `page_end`
satisfies `page_end ≥ page_start - 1`; `page_end ≥ page_start` can
fail (only) by exactly one page, when the next same-or-higher-level
entry starts on the same page as the current one. -/
theorem claim1_amended (re : DocRe) (toc : List TOCEntry) (pages : List PageExtraction)
    (s : DocumentSection) (hs : s ∈ parse_document_sections re toc pages)
    (pe : Int) (hpe : s.page_end = some pe) : s.page_start - 1 ≤ pe := by
  obtain ⟨pre, e, rest, c, heq, hex, hdef⟩ := parse_sections_loop_mem hs
  have hsorted : (List.insertionSort pageOrder toc).Pairwise pageOrder :=
    List.sorted_insertionSort pageOrder toc
  rw [heq] at hsorted
  have hrest : (e :: rest).Pairwise pageOrder :=
    List.Pairwise.sublist (List.sublist_append_right pre (e :: rest)) hsorted
  subst hdef
  have hpe' : determine_end_from e.level rest = some pe := hpe
  obtain ⟨x, hx, hv, -⟩ := determine_end_from_some hpe'
  have hle : e.page ≤ x.page := (List.pairwise_cons.1 hrest).1 x hx
  show e.page - 1 ≤ pe
  omega

/-- C1 witness: the amended bound at scenario D's first section, whose
`page_end` is 29 and whose `page_start` is 25. -/
theorem claim1_witness :
    ((parse_document_sections trivDocRe scenarioD_toc scenarioD_pages).head
        (by decide)).page_start - 1 ≤ 29 :=
  claim1_amended trivDocRe scenarioD_toc scenarioD_pages _ (List.head_mem (by decide)) 29
    (by decide)

/-- C1 counterexample: with two level-1 entries both starting at page
25, the mapper produces a section with `page_start = 25` and
`page_end = 24`, so a present `page_end` is not always ≥ `page_start`. -/
theorem claim1_counterexample :
    ∃ s ∈ parse_document_sections trivDocRe claim1_toc claim1_pages,
      s.page_end = some 24 ∧ s.page_start = 25 ∧ ¬(s.page_start ≤ 24) := by
  refine ⟨(parse_document_sections trivDocRe claim1_toc claim1_pages).head (by decide),
    List.head_mem _, by decide, by decide, by decide⟩

theorem isNumericId_eq_false_of_head {s : String} {c : Char}
    (hs : s.data.head? = some c) (hc : c.isDigit = false) : isNumericId s = false := by
  rw [Bool.eq_false_iff]
  intro h
  obtain ⟨c2, cs, hss, hd⟩ := isNumericId_head h
  rw [hss] at hs
  simp only [List.head?_cons, Option.some.injEq] at hs
  rw [hs] at hd
  rw [hc] at hd
  cases hd

/-- C7: for a dotted-numeric section id, `level` is the number of
dot-separated components and `parent_id` drops the last component
(absent for a single component); appendix, chapter and "REF" ids get
level 1 and no parent; table/figure ids get level 3 and no parent. -/
theorem claim7 :
    (∀ s : String, isNumericId s = true →
        calculate_level s = ((splitOnChar '.' s.data).length : Int) ∧
        find_parent_id s =
          (if 2 ≤ (splitOnChar '.' s.data).length then
            some ⟨List.intercalate ['.'] (splitOnChar '.' s.data).dropLast⟩
          else none)) ∧
    (∀ s : String, (pyStartsWith s ("Appendix") || pyStartsWith s ("APPENDIX")) = true →
        calculate_level s = 1 ∧ find_parent_id s = none) ∧
    (∀ s : String, (pyStartsWith s ("Chapter") || pyStartsWith s ("CHAPTER")) = true →
        calculate_level s = 1 ∧ find_parent_id s = none) ∧
    (calculate_level ("REF") = 1 ∧ find_parent_id ("REF") = none) ∧
    (∀ s : String, (pyStartsWith s ("Table") || pyStartsWith s ("Figure")) = true →
        calculate_level s = 3 ∧ find_parent_id s = none) := by
  refine ⟨?_, ?_, ?_, by decide, ?_⟩
  · intro s h
    have hA : pyStartsWith s ("Appendix") = false :=
      pyStartsWith_eq_false_of_numeric h
        (show ("Appendix" : String).data.head? = some 'A' by decide) (by decide)
    have hA2 : pyStartsWith s ("APPENDIX") = false :=
      pyStartsWith_eq_false_of_numeric h
        (show ("APPENDIX" : String).data.head? = some 'A' by decide) (by decide)
    have hC : pyStartsWith s ("Chapter") = false :=
      pyStartsWith_eq_false_of_numeric h
        (show ("Chapter" : String).data.head? = some 'C' by decide) (by decide)
    have hC2 : pyStartsWith s ("CHAPTER") = false :=
      pyStartsWith_eq_false_of_numeric h
        (show ("CHAPTER" : String).data.head? = some 'C' by decide) (by decide)
    have hT : pyStartsWith s ("Table") = false :=
      pyStartsWith_eq_false_of_numeric h
        (show ("Table" : String).data.head? = some 'T' by decide) (by decide)
    have hF : pyStartsWith s ("Figure") = false :=
      pyStartsWith_eq_false_of_numeric h
        (show ("Figure" : String).data.head? = some 'F' by decide) (by decide)
    have hR : pyStartsWith s ("REF") = false :=
      pyStartsWith_eq_false_of_numeric h
        (show ("REF" : String).data.head? = some 'R' by decide) (by decide)
    have hRe : ¬(s = ("REF")) := numeric_ne_REF h
    have hcount := splitOnChar_length '.' s.data
    constructor
    · simp only [calculate_level, hA, hA2, hC, hC2, hT, hF, Bool.or_self, if_neg, hRe,
        if_false, h, if_true, hcount]
      push_cast
      ring
    · simp only [find_parent_id, hA, hA2, hC, hC2, hR, Bool.or_self, if_false]
      by_cases hd : 1 ≤ s.data.count '.'
      · have hdot : isDottedNumericId s = true := by simp [isDottedNumericId, h, hd]
        rw [hdot]
        rw [if_pos (by omega : 1 < (splitOnChar '.' s.data).length)]
        rw [if_pos (by omega : 2 ≤ (splitOnChar '.' s.data).length)]
        simp
      · have hdot : isDottedNumericId s = false := by simp [isDottedNumericId, hd]
        rw [hdot]
        rw [if_neg (by omega : ¬ 2 ≤ (splitOnChar '.' s.data).length)]
        simp
  · intro s h
    simp only [Bool.or_eq_true] at h
    rcases h with h1 | h1 <;>
      simp [calculate_level, find_parent_id, h1]
  · intro s h
    simp only [Bool.or_eq_true] at h
    have hhead : s.data.head? = some 'C' := by
      rcases h with h1 | h1
      · exact head_of_pyStartsWith (show ("Chapter" : String).data.head? = some 'C' by decide) h1
      · exact head_of_pyStartsWith (show ("CHAPTER" : String).data.head? = some 'C' by decide) h1
    have hA : pyStartsWith s ("Appendix") = false :=
      pyStartsWith_eq_false_of_head hhead
        (show ("Appendix" : String).data.head? = some 'A' by decide) (by decide)
    have hA2 : pyStartsWith s ("APPENDIX") = false :=
      pyStartsWith_eq_false_of_head hhead
        (show ("APPENDIX" : String).data.head? = some 'A' by decide) (by decide)
    rcases h with h1 | h1 <;>
      simp [calculate_level, find_parent_id, hA, hA2, h1]
  · intro s h
    simp only [Bool.or_eq_true] at h
    have hhead : s.data.head? = some 'T' ∨ s.data.head? = some 'F' := by
      rcases h with h1 | h1
      · exact Or.inl
          (head_of_pyStartsWith (show ("Table" : String).data.head? = some 'T' by decide) h1)
      · exact Or.inr
          (head_of_pyStartsWith (show ("Figure" : String).data.head? = some 'F' by decide) h1)
    have hprefixFalse : ∀ (p : String) (a : Char), p.data.head? = some a →
        ('T' ≠ a) → ('F' ≠ a) → pyStartsWith s p = false := by
      intro p a hp hT hF
      rcases hhead with hh | hh
      · exact pyStartsWith_eq_false_of_head hh hp hT
      · exact pyStartsWith_eq_false_of_head hh hp hF
    have hA : pyStartsWith s ("Appendix") = false :=
      hprefixFalse ("Appendix") 'A' (by decide) (by decide) (by decide)
    have hA2 : pyStartsWith s ("APPENDIX") = false :=
      hprefixFalse ("APPENDIX") 'A' (by decide) (by decide) (by decide)
    have hC : pyStartsWith s ("Chapter") = false :=
      hprefixFalse ("Chapter") 'C' (by decide) (by decide) (by decide)
    have hC2 : pyStartsWith s ("CHAPTER") = false :=
      hprefixFalse ("CHAPTER") 'C' (by decide) (by decide) (by decide)
    have hR : pyStartsWith s ("REF") = false :=
      hprefixFalse ("REF") 'R' (by decide) (by decide) (by decide)
    have hnum : isNumericId s = false := by
      rcases hhead with hh | hh
      · exact isNumericId_eq_false_of_head hh (by decide)
      · exact isNumericId_eq_false_of_head hh (by decide)
    have hdot : isDottedNumericId s = false := by simp [isDottedNumericId, hnum]
    constructor
    · rcases h with h1 | h1 <;> simp [calculate_level, hA, hA2, hC, hC2, h1]
    · simp [find_parent_id, hA, hA2, hC, hC2, hR, hdot]

/-- C7 witness: the theorem instantiated at the concrete ids
"2.1.3" (numeric: level 3, parent "2.1"), "Appendix A", "Chapter 2",
"REF" and "Table 6-1". -/
theorem claim7_witness :
    (calculate_level ("2.1.3") = ((splitOnChar '.' ("2.1.3" : String).data).length : Int) ∧
      find_parent_id ("2.1.3") =
        (if 2 ≤ (splitOnChar '.' ("2.1.3" : String).data).length then
          some ⟨List.intercalate ['.'] (splitOnChar '.' ("2.1.3" : String).data).dropLast⟩
        else none)) ∧
    (calculate_level ("Appendix A") = 1 ∧ find_parent_id ("Appendix A") = none) ∧
    (calculate_level ("Chapter 2") = 1 ∧ find_parent_id ("Chapter 2") = none) ∧
    (calculate_level ("Table 6-1") = 3 ∧ find_parent_id ("Table 6-1") = none) :=
  ⟨claim7.1 ("2.1.3") (by decide), claim7.2.1 ("Appendix A") (by decide),
    claim7.2.2.1 ("Chapter 2") (by decide), claim7.2.2.2.2 ("Table 6-1") (by decide)⟩

theorem mem_pyDedupAux {α : Type} [DecidableEq α] (x : α) :
    ∀ (l seen : List α), x ∈ pyDedupAux seen l ↔ (x ∈ l ∧ x ∉ seen) := by
  intro l
  induction l with
  | nil => intro seen; simp [pyDedupAux]
  | cons a t ih =>
    intro seen
    by_cases ha : a ∈ seen
    · rw [pyDedupAux, if_pos ha, ih seen]
      constructor
      · rintro ⟨h1, h2⟩; exact ⟨List.mem_cons.2 (Or.inr h1), h2⟩
      · rintro ⟨h1, h2⟩
        rcases List.mem_cons.1 h1 with h3 | h3
        · subst h3; exact absurd ha h2
        · exact ⟨h3, h2⟩
    · rw [pyDedupAux, if_neg ha]
      constructor
      · intro h
        rcases List.mem_cons.1 h with h1 | h1
        · subst h1; simp [ha]
        · rcases (ih (a :: seen)).1 h1 with ⟨h2, h3⟩
          refine ⟨List.mem_cons.2 (Or.inr h2), fun hc => h3 (List.mem_cons.2 (Or.inr hc))⟩
      · rintro ⟨h1, h2⟩
        rcases List.mem_cons.1 h1 with h3 | h3
        · subst h3; exact List.mem_cons.2 (Or.inl rfl)
        · by_cases hxa : x = a
          · subst hxa; exact List.mem_cons.2 (Or.inl rfl)
          · refine List.mem_cons.2 (Or.inr ((ih (a :: seen)).2 ⟨h3, ?_⟩))
            intro hc
            rcases List.mem_cons.1 hc with h4 | h4
            · exact hxa h4
            · exact h2 h4

theorem mem_pyDedup {α : Type} [DecidableEq α] {l : List α} {x : α} :
    x ∈ pyDedup l ↔ x ∈ l := by
  rw [pyDedup, mem_pyDedupAux]
  simp

/-- Entries with distinct numeric ids whose zero-padded integer
components coincide. -/
def claim3_e1 : TOCEntry := mkEntry ("2.1") 10 2

/-- See `claim3_e1`. -/
def claim3_e2 : TOCEntry := mkEntry ("2.1.0") 10 3

/-- A numeric-id entry used to instantiate the key-equality
characterisation. -/
def claim3_w1 : TOCEntry := mkEntry ("3.2") 7 2

/-- See `claim3_w1`. -/
def claim3_w2 : TOCEntry := mkEntry ("3.2.0") 7 3

/-- C3 (amended): re-sorting by the entry key is idempotent, and for
entries with dotted-numeric ids the full keys `(page, sort-key)` are
equal exactly when the pages agree and the zero-padded integer
component tuples agree — which, as the counterexample shows, does not
force identical `section_id` strings. -/
theorem claim3_amended :
    (∀ l : List TOCEntry,
        List.insertionSort entryOrder (List.insertionSort entryOrder l) =
          List.insertionSort entryOrder l) ∧
    (∀ (a b : TOCEntry) (la lb : List Int),
        section_sort_key a.section_id = SKey.nums la →
        section_sort_key b.section_id = SKey.nums lb →
        (entryKey a = entryKey b ↔ (a.page = b.page ∧ la = lb))) := by
  constructor
  · intro l
    exact List.Sorted.insertionSort_eq (List.sorted_insertionSort entryOrder l)
  · intro a b la lb ha hb
    simp [entryKey, ha, hb, Prod.ext_iff]

/-- C3 witness: the key-equality characterisation applied to the
entries "3.2" (page 7) and "3.2.0" (page 7). -/
theorem claim3_witness :
    entryKey claim3_w1 = entryKey claim3_w2 ↔
      (claim3_w1.page = claim3_w2.page ∧
        ([3, 2, 0, 0, 0] : List Int) = [3, 2, 0, 0, 0]) :=
  claim3_amended.2 claim3_w1 claim3_w2 [3, 2, 0, 0, 0] [3, 2, 0, 0, 0] (by decide) (by decide)

/-- C3 counterexample: the parser-shaped numeric ids "2.1" and
"2.1.0" at the same page have equal sort keys although their
`(page, section_id)` pairs differ, refuting the claim that key
equality forces identical `(page, section_id)`. -/
theorem claim3_counterexample :
    entryKey claim3_e1 = entryKey claim3_e2 ∧
    claim3_e1.page = claim3_e2.page ∧
    claim3_e1.section_id ≠ claim3_e2.section_id ∧
    isNumericId claim3_e1.section_id = true ∧
    isNumericId claim3_e2.section_id = true := by
  refine ⟨by decide, by decide, by decide, by decide, by decide⟩

/-- A raw `references`-pattern match carrying page number 9999. -/
def claim2_refMatch : RawMatch :=
  ⟨0, 20, ("References 9999"), [("References"), ("9999")]⟩

/-- C2 (amended): matches of the five page-checked patterns survive
`_validate_match` exactly when the page lies in `[1, 5000]`, the
stripped title length lies in `[2, 200]` and at least 30% of the
title's characters are alphabetic; matches of the `table_figure` and
`references` patterns are never subjected to any of the three checks
and always survive. -/
theorem claim2_amended :
    (∀ gs : List String,
        validate_match .table_figure gs = true ∧ validate_match .references gs = true) ∧
    (∀ (p : PatternName) (gs : List String) (titleRaw pageStr : String) (page : Int),
        pageCheckedPattern p = true →
        groupNegTwo gs = some titleRaw →
        groupNegOne gs = some pageStr →
        pyInt? pageStr = some page →
        (validate_match p gs = true ↔
          (1 ≤ page ∧ page ≤ 5000 ∧
            2 ≤ (pyStrip titleRaw).length ∧ (pyStrip titleRaw).length ≤ 200 ∧
            3 * (pyStrip titleRaw).length ≤
              10 * ((pyStrip titleRaw).data.countP Char.isAlpha)))) := by
  constructor
  · intro gs; exact ⟨rfl, rfl⟩
  · intro p gs titleRaw pageStr page hp h2 h1 hip
    simp only [validate_match, hp, if_true, h1, h2, hip]
    split_ifs with hA hB hC <;> simp <;> omega

/-- C2 witness: the characterisation applied to a `standard`-pattern
match with groups `("2", "Overview", "15")`. -/
theorem claim2_witness :
    validate_match .standard [("2"), ("Overview"), ("15")] = true ↔
      (1 ≤ (15 : Int) ∧ (15 : Int) ≤ 5000 ∧
        2 ≤ (pyStrip ("Overview")).length ∧ (pyStrip ("Overview")).length ≤ 200 ∧
        3 * (pyStrip ("Overview")).length ≤
          10 * ((pyStrip ("Overview")).data.countP Char.isAlpha)) :=
  claim2_amended.2 .standard [("2"), ("Overview"), ("15")] ("Overview") ("15") 15
    (by decide) (by decide) (by decide) (by decide)

/-- C2 counterexample: a `references`-pattern match whose page number
9999 lies far outside `[1, 5000]` passes `_validate_match` and
survives `_filter_matches`, so validation does not reject
out-of-range pages regardless of the producing pattern. -/
theorem claim2_counterexample :
    validate_match .references [("References"), ("9999")] = true ∧
    filter_matches [(.references, claim2_refMatch)] = [(.references, claim2_refMatch)] ∧
    pyInt? ("9999") = some 9999 ∧ ¬((9999 : Int) ≤ 5000) := by
  refine ⟨by decide, by decide, by decide, by decide⟩

/-- C4: the overall match rate averages the two per-side rates built
from `matched / max(1, count)`; the summary status is the categorical
function of `(overall_match_rate, quality_issues_count)` with
thresholds 0.95/0, 0.85/2 and 0.70; match rate 1.0 with no quality
issues is "Excellent" and match rate 0.72 is "Fair". -/
theorem claim4 :
    (∀ (toc : List TOCEntry) (secs : List DocumentSection) (m e mm q : Nat),
        (calculate_validation_statistics toc secs m e mm q).overall_match_rate =
          (((calculate_validation_statistics toc secs m e mm q).matched_sections_count : ℚ) /
              (max 1 (calculate_validation_statistics toc secs m e mm q).toc_sections_count
                : Nat) +
            ((calculate_validation_statistics toc secs m e mm q).matched_sections_count : ℚ) /
              (max 1 (calculate_validation_statistics toc secs m e mm q).document_sections_count
                : Nat)) / 2) ∧
    (∀ (toc : List TOCEntry) (secs : List DocumentSection),
        (validate_parsing_results toc secs).summary.status =
          summary_status (validate_parsing_results toc secs).statistics.overall_match_rate
            (validate_parsing_results toc secs).statistics.quality_issues_count) ∧
    (∀ (rate : ℚ) (qi : Nat),
        summary_status rate qi = ("Excellent") ↔ (95/100 ≤ rate ∧ qi = 0)) ∧
    (∀ (rate : ℚ) (qi : Nat),
        summary_status rate qi = ("Good") ↔
          (¬(95/100 ≤ rate ∧ qi = 0) ∧ 85/100 ≤ rate ∧ qi ≤ 2)) ∧
    (∀ (rate : ℚ) (qi : Nat),
        summary_status rate qi = ("Fair") ↔
          (¬(95/100 ≤ rate ∧ qi = 0) ∧ ¬(85/100 ≤ rate ∧ qi ≤ 2) ∧ 70/100 ≤ rate)) ∧
    (∀ (rate : ℚ) (qi : Nat),
        summary_status rate qi = ("Poor") ↔
          (¬(95/100 ≤ rate ∧ qi = 0) ∧ ¬(85/100 ≤ rate ∧ qi ≤ 2) ∧ ¬(70/100 ≤ rate))) ∧
    (summary_status 1 0 = ("Excellent")) ∧
    (∀ qi : Nat, summary_status (72/100) qi = ("Fair")) := by
  refine ⟨fun toc secs m e mm q => rfl, fun toc secs => rfl, ?_, ?_, ?_, ?_, ?_, ?_⟩
  · intro rate qi; rw [summary_status]; split_ifs with h1 h2 h3 <;> simp_all
  · intro rate qi; rw [summary_status]; split_ifs with h1 h2 h3 <;> simp_all
  · intro rate qi; rw [summary_status]; split_ifs with h1 h2 h3 <;> simp_all
  · intro rate qi; rw [summary_status]; split_ifs with h1 h2 h3 <;> simp_all
  · rw [summary_status]; norm_num
  · intro qi; rw [summary_status]; norm_num

/-- A healthy section except for a present-but-zero `page_end` below
`page_start` (the shape the mapper produces when the next sibling
starts at page 1). -/
def claim6_badRange : DocumentSection :=
  { section_id := ("9")
    title := ("Healthy Section")
    page_start := 1
    page_end := some 0
    level := 1
    parent_id := none
    full_path := ("9 Healthy Section")
    content := ("plenty of perfectly ordinary textual content kept here")
    content_type := ("text")
    has_tables := false
    has_figures := false
    table_count := 0
    figure_count := 0
    word_count := 50
    tags := []
    confidence_score := 9/10
    extraction_notes := [] }

/-- Scenario B of the spec: `word_count = 3` with `confidence = 0.9`. -/
def claim6_scenB : DocumentSection :=
  { section_id := ("2.1")
    title := ("Short Section")
    page_start := 4
    page_end := some 6
    level := 2
    parent_id := some ("2")
    full_path := ("2.1 Short Section")
    content := ("one two three")
    content_type := ("text")
    has_tables := false
    has_figures := false
    table_count := 0
    figure_count := 0
    word_count := 3
    tags := []
    confidence_score := 9/10
    extraction_notes := [] }

/-- C6 (amended): the quality check records an issue for a section
exactly when confidence < 0.5, word count < 10, the trimmed content is
empty, the extraction notes are nonempty, or `page_end` is present,
nonzero and below `page_start` (Python truthiness makes a zero
`page_end` fall out of the range check); a recorded issue has severity
"High" iff confidence < 0.3 or word count < 5, else "Medium";
scenario B (`word_count = 3`, `confidence = 0.9`) is recorded with
severity "High". -/
theorem claim6_amended :
    (∀ secs : List DocumentSection,
        validate_content_quality secs = secs.filterMap quality_row_of) ∧
    (∀ s : DocumentSection,
        ((quality_row_of s).isSome = true ↔
          (s.confidence_score < 1/2 ∨ s.word_count < 10 ∨ pyStrip s.content = ("") ∨
            s.extraction_notes ≠ [] ∨ invalidPageRange s = true))) ∧
    (∀ s : DocumentSection,
        (quality_row_of s).map (fun r => r.severity) =
          (if s.confidence_score < 1/2 ∨ s.word_count < 10 ∨ pyStrip s.content = ("") ∨
              s.extraction_notes ≠ [] ∨ invalidPageRange s = true then
            some (if s.confidence_score < 3/10 ∨ s.word_count < 5 then ("High")
              else ("Medium"))
          else none)) ∧
    ((validate_content_quality [claim6_scenB]).map (fun r => r.severity) = [("High")]) := by
  refine ⟨fun secs => rfl, ?_, ?_, ?_⟩
  · intro s
    by_cases h1 : s.confidence_score < 1/2 <;>
    by_cases h2 : s.word_count < 10 <;>
    by_cases h3 : pyStrip s.content = ("") <;>
    by_cases h4 : s.extraction_notes = [] <;>
    by_cases h5 : invalidPageRange s = true <;>
    simp [quality_row_of, h1, h2, h3, h4, h5]
  · intro s
    by_cases h1 : s.confidence_score < 1/2 <;>
    by_cases h2 : s.word_count < 10 <;>
    by_cases h3 : pyStrip s.content = ("") <;>
    by_cases h4 : s.extraction_notes = [] <;>
    by_cases h5 : invalidPageRange s = true <;>
    simp [quality_row_of, h1, h2, h3, h4, h5]
  · simp [validate_content_quality, quality_row_of, claim6_scenB, invalidPageRange]

/-- C6 counterexample: a section whose `page_end` (0) is present and
strictly below `page_start` (1), with no other defect, produces no
quality issue at all — the claimed invalid-page-range trigger fails
for a zero `page_end`. -/
theorem claim6_counterexample :
    validate_content_quality [claim6_badRange] = [] ∧
    claim6_badRange.page_end = some 0 ∧
    claim6_badRange.page_start = 1 ∧
    ((0 : Int) < claim6_badRange.page_start) ∧
    ¬(claim6_badRange.confidence_score < 1/2) ∧
    ¬(claim6_badRange.word_count < 10) ∧
    pyStrip claim6_badRange.content ≠ ("") ∧
    claim6_badRange.extraction_notes = [] := by
  refine ⟨?_, by decide, by decide, by decide, by norm_num [claim6_badRange], by decide,
    by decide, by decide⟩
  simp [validate_content_quality, quality_row_of, claim6_badRange, invalidPageRange]
  exact ⟨by norm_num, by decide⟩

/-- A `TocRe` whose collector reports one `standard` match. -/
def claim8_tocRe : TocRe :=
  { collect := fun _ => [(.standard, ⟨0, 16, ("2 Overview 15"), [("2"), ("Overview"), ("15")]⟩)]
    noise := fun _ => false
    tagSearch := fun _ _ => false }

/-- C8: every entry returned by `parse_toc_text` and every section
returned by `parse_document_sections` carries a confidence score in
`[0, 1]`, for every behaviour of the regex engine. -/
theorem claim8 :
    (∀ (re : TocRe) (text : String) (e : TOCEntry), e ∈ parse_toc_text re text →
        0 ≤ e.confidence_score ∧ e.confidence_score ≤ 1) ∧
    (∀ (re : DocRe) (toc : List TOCEntry) (pages : List PageExtraction)
        (s : DocumentSection), s ∈ parse_document_sections re toc pages →
        0 ≤ s.confidence_score ∧ s.confidence_score ≤ 1) := by
  constructor
  · intro re text e he
    unfold parse_toc_text at he
    simp only [generate_semantic_tags, List.mem_map] at he
    obtain ⟨x, hx, hxe⟩ := he
    simp only [calculate_confidence_scores, List.mem_map] at hx
    obtain ⟨y, hy, hyx⟩ := hx
    subst hxe
    subst hyx
    exact ⟨clampQ_nonneg _, clampQ_le_one _⟩
  · intro re toc pages s hs
    obtain ⟨e, he, h⟩ := parse_document_sections_mem hs
    obtain ⟨q, hq⟩ := h.2.2.2.2.2.2.2
    rw [hq]
    exact ⟨clampQ_nonneg _, clampQ_le_one _⟩

/-- C8 witness: the bounds at the first entry parsed from a concrete
match list and at the first section mapped from a concrete ToC. -/
theorem claim8_witness :
    (0 ≤ ((parse_toc_text claim8_tocRe ("")).head (by decide)).confidence_score ∧
      ((parse_toc_text claim8_tocRe ("")).head (by decide)).confidence_score ≤ 1) ∧
    (0 ≤ ((parse_document_sections trivDocRe claim1_toc claim1_pages).head
        (by decide)).confidence_score ∧
      ((parse_document_sections trivDocRe claim1_toc claim1_pages).head
        (by decide)).confidence_score ≤ 1) :=
  ⟨claim8.1 claim8_tocRe ("") _ (List.head_mem _),
    claim8.2 trivDocRe claim1_toc claim1_pages _ (List.head_mem _)⟩

/-- The regex engine only ever reports matches that occupy a nonempty
span inside the searched text (every pattern of `_compile_patterns`
contains a mandatory one-or-more atom). -/
def MatchesInText (collect : String → List (PatternName × RawMatch)) : Prop :=
  ∀ (text : String) (p : PatternName) (m : RawMatch),
    (p, m) ∈ collect text → m.startPos < m.endPos ∧ m.endPos ≤ text.length

/-- A `TocRe` whose collector never matches. -/
def emptyTocRe : TocRe :=
  { collect := fun _ => [], noise := fun _ => false, tagSearch := fun _ _ => false }

/-- C9: the ToC parser maps the empty string to the empty entry list
(for every regex engine whose matches occupy nonempty spans of the
searched text), and validating an empty ToC against an empty section
list yields a complete result: five empty issue lists, zero counts,
zero match rates, and status "Poor". -/
theorem claim9 :
    (∀ re : TocRe, MatchesInText re.collect → parse_toc_text re ("") = []) ∧
    ((validate_parsing_results [] []).missing_sections = [] ∧
      (validate_parsing_results [] []).extra_sections = [] ∧
      (validate_parsing_results [] []).page_mismatches = [] ∧
      (validate_parsing_results [] []).section_comparison = [] ∧
      (validate_parsing_results [] []).quality_issues = [] ∧
      (validate_parsing_results [] []).statistics.toc_sections_count = 0 ∧
      (validate_parsing_results [] []).statistics.document_sections_count = 0 ∧
      (validate_parsing_results [] []).statistics.matched_sections_count = 0 ∧
      (validate_parsing_results [] []).statistics.missing_sections_count = 0 ∧
      (validate_parsing_results [] []).statistics.extra_sections_count = 0 ∧
      (validate_parsing_results [] []).statistics.page_mismatches_count = 0 ∧
      (validate_parsing_results [] []).statistics.quality_issues_count = 0 ∧
      (validate_parsing_results [] []).statistics.toc_match_rate = 0 ∧
      (validate_parsing_results [] []).statistics.document_match_rate = 0 ∧
      (validate_parsing_results [] []).statistics.overall_match_rate = 0 ∧
      (validate_parsing_results [] []).summary.status = ("Poor")) := by
  constructor
  · intro re hre
    have hnil : re.collect (preprocess_text re ("")) = [] := by
      have hclean : preprocess_text re ("") = ("") := rfl
      rw [hclean]
      rw [List.eq_nil_iff_forall_not_mem]
      intro pm hm
      obtain ⟨p, m⟩ := pm
      have h2 := hre ("") p m hm
      have h3 : ("" : String).length = 0 := rfl
      rw [h3] at h2
      omega
    show generate_semantic_tags re
      (calculate_confidence_scores (assign_hierarchical_structure
        (create_toc_entries (filter_matches (re.collect (preprocess_text re (""))))))) = []
    rw [hnil]
    rfl
  · refine ⟨rfl, rfl, rfl, rfl, rfl, rfl, rfl, rfl, rfl, rfl, rfl, rfl, ?_, ?_, ?_, ?_⟩
    · norm_num [validate_parsing_results, calculate_validation_statistics]
    · norm_num [validate_parsing_results, calculate_validation_statistics]
    · norm_num [validate_parsing_results, calculate_validation_statistics]
    · simp [validate_parsing_results, generate_validation_summary, summary_status,
        calculate_validation_statistics]
      norm_num

/-- C9 witness: the empty-input theorem applied to a regex engine that
reports no matches (which trivially keeps all matches inside the
text). -/
theorem claim9_witness : parse_toc_text emptyTocRe ("") = [] :=
  claim9.1 emptyTocRe (fun text p m hm => by simp [emptyTocRe] at hm)

theorem tocLookup_mem {toc : List TOCEntry} {k : String} {e : TOCEntry}
    (h : tocLookup toc k = some e) : e ∈ toc ∧ e.section_id = k := by
  have hm := List.mem_of_find?_eq_some h
  have hp := List.find?_some h
  rw [List.mem_reverse] at hm
  simp only [decide_eq_true_eq] at hp
  exact ⟨hm, hp⟩

theorem secLookup_mem {secs : List DocumentSection} {k : String} {s : DocumentSection}
    (h : secLookup secs k = some s) : s ∈ secs ∧ s.section_id = k := by
  have hm := List.mem_of_find?_eq_some h
  have hp := List.find?_some h
  rw [List.mem_reverse] at hm
  simp only [decide_eq_true_eq] at hp
  exact ⟨hm, hp⟩

theorem tocLookup_isSome_of_mem {toc : List TOCEntry} {k : String}
    (h : k ∈ toc.map (fun e => e.section_id)) : (tocLookup toc k).isSome = true := by
  rw [tocLookup, List.find?_isSome]
  simp only [List.mem_map] at h
  obtain ⟨e, he, hk⟩ := h
  exact ⟨e, List.mem_reverse.2 he, by simp [hk]⟩

theorem secLookup_isSome_of_mem {secs : List DocumentSection} {k : String}
    (h : k ∈ secs.map (fun s => s.section_id)) : (secLookup secs k).isSome = true := by
  rw [secLookup, List.find?_isSome]
  simp only [List.mem_map] at h
  obtain ⟨s, hs, hk⟩ := h
  exact ⟨s, List.mem_reverse.2 hs, by simp [hk]⟩

/-- C10: every produced section copies `page_start` and the identity
fields from its originating ToC entry, and consequently — when the ToC
ids are distinct — validating the ToC against the sections mapped from
it yields no page mismatches and only "OK" comparison rows. -/
theorem claim10 :
    (∀ (re : DocRe) (toc : List TOCEntry) (pages : List PageExtraction)
        (s : DocumentSection), s ∈ parse_document_sections re toc pages →
          ∃ e ∈ toc, s.section_id = e.section_id ∧ s.title = e.title ∧
            s.page_start = e.page ∧ s.level = e.level ∧ s.parent_id = e.parent_id ∧
            s.full_path = e.full_path ∧ s.tags = e.tags) ∧
    (∀ (re : DocRe) (toc : List TOCEntry) (pages : List PageExtraction),
        (toc.map (fun e => e.section_id)).Nodup →
          (validate_parsing_results toc
              (parse_document_sections re toc pages)).page_mismatches = [] ∧
          (∀ r ∈ (validate_parsing_results toc
              (parse_document_sections re toc pages)).section_comparison,
            r.status = ("OK"))) := by
  have fields : ∀ (re : DocRe) (toc : List TOCEntry) (pages : List PageExtraction)
      (s : DocumentSection), s ∈ parse_document_sections re toc pages →
      ∃ e, e ∈ toc ∧ s.section_id = e.section_id ∧ s.title = e.title ∧
        s.page_start = e.page ∧ s.level = e.level ∧ s.parent_id = e.parent_id ∧
        s.full_path = e.full_path ∧ s.tags = e.tags := by
    intro re toc pages s hs
    obtain ⟨e, he, h1, h2, h3, h4, h5, h6, h7, -⟩ := parse_document_sections_mem hs
    exact ⟨e, he, h1, h2, h3, h4, h5, h6, h7⟩
  constructor
  · exact fields
  · intro re toc pages hnodup
    have key : ∀ (k : String) (e : TOCEntry) (s : DocumentSection),
        tocLookup toc k = some e →
        secLookup (parse_document_sections re toc pages) k = some s →
        e.page = s.page_start ∧ e.level = s.level ∧ e.parent_id = s.parent_id ∧
        e.title = s.title := by
      intro k e s hte hse
      obtain ⟨heMem, heId⟩ := tocLookup_mem hte
      obtain ⟨hsMem, hsId⟩ := secLookup_mem hse
      obtain ⟨e2, he2Mem, g1, g2, g3, g4, g5, g6, g7⟩ := fields re toc pages s hsMem
      have he2e : e2 = e := by
        apply List.inj_on_of_nodup_map hnodup he2Mem heMem
        rw [← g1, hsId, heId]
      subst he2e
      exact ⟨g3.symm, g4.symm, g5.symm, g2.symm⟩
    constructor
    · show page_mismatches_of toc (parse_document_sections re toc pages) = []
      rw [page_mismatches_of, List.filterMap_eq_nil_iff]
      intro k hk
      have hk1 : k ∈ toc.map (fun e => e.section_id) :=
        mem_pyDedup.1 (List.mem_filter.1 hk).1
      have hk2 : k ∈ (parse_document_sections re toc pages).map (fun s => s.section_id) := by
        have := (List.mem_filter.1 hk).2
        simpa using this
      obtain ⟨e, hte⟩ := Option.isSome_iff_exists.1 (tocLookup_isSome_of_mem hk1)
      obtain ⟨s, hse⟩ := Option.isSome_iff_exists.1 (secLookup_isSome_of_mem hk2)
      rw [hte, hse]
      obtain ⟨hpage, -, -, -⟩ := key k e s hte hse
      simp [hpage]
    · intro r hr
      have hr2 : r ∈ section_comparison_of toc (parse_document_sections re toc pages) := hr
      rw [section_comparison_of] at hr2
      obtain ⟨k, hk, hg⟩ := List.mem_filterMap.1 hr2
      cases hte : tocLookup toc k with
      | none => rw [hte] at hg; simp at hg
      | some e =>
        cases hse : secLookup (parse_document_sections re toc pages) k with
        | none => rw [hte, hse] at hg; simp at hg
        | some s =>
          rw [hte, hse] at hg
          simp only [Option.some.injEq] at hg
          obtain ⟨-, hlevel, hparent, htitle⟩ := key k e s hte hse
          rw [← hg]
          simp [comp_row_of, hlevel, hparent, htitle]

/-- A two-entry ToC with distinct ids for the witness run. -/
def claim10_toc : List TOCEntry := [mkEntry ("1") 3 1, mkEntry ("1.1") 5 2]

/-- A two-page corpus for the witness run. -/
def claim10_pages : List PageExtraction :=
  [⟨3, ("intro text")⟩, ⟨5, ("details text")⟩]

/-- C10 witness: both halves of the theorem at a concrete ToC with
distinct ids and the sections the mapper produces from it. -/
theorem claim10_witness :
    (∃ e ∈ claim10_toc,
      ((parse_document_sections trivDocRe claim10_toc claim10_pages).head
          (by decide)).section_id = e.section_id ∧
      ((parse_document_sections trivDocRe claim10_toc claim10_pages).head
          (by decide)).title = e.title ∧
      ((parse_document_sections trivDocRe claim10_toc claim10_pages).head
          (by decide)).page_start = e.page ∧
      ((parse_document_sections trivDocRe claim10_toc claim10_pages).head
          (by decide)).level = e.level ∧
      ((parse_document_sections trivDocRe claim10_toc claim10_pages).head
          (by decide)).parent_id = e.parent_id ∧
      ((parse_document_sections trivDocRe claim10_toc claim10_pages).head
          (by decide)).full_path = e.full_path ∧
      ((parse_document_sections trivDocRe claim10_toc claim10_pages).head
          (by decide)).tags = e.tags) ∧
    ((validate_parsing_results claim10_toc
        (parse_document_sections trivDocRe claim10_toc claim10_pages)).page_mismatches = [] ∧
      (∀ r ∈ (validate_parsing_results claim10_toc
          (parse_document_sections trivDocRe claim10_toc claim10_pages)).section_comparison,
        r.status = ("OK"))) :=
  ⟨claim10.1 trivDocRe claim10_toc claim10_pages _ (List.head_mem _),
    claim10.2 trivDocRe claim10_toc claim10_pages (by decide)⟩
